import Mathlib

/-!
Verification of the DVI export subsystem (`dviexport.cpp`): executable
resolution (`find_exe`, `get_env_path`), the `DVIExportToPDF` /
`DVIExportToPS` constructor flow (validation, output-name selection,
page-renumbering decision, converter argument construction), and the
process finish / abort handlers of `DVIExport` and `DVIExportToPS`.

The embedding models the build actually compiled: `DVIEXPORT_USE_QPROCESS`
is not defined (line 40 of the source is commented out), so the `KProcess`
branches are the ones modelled, and the POSIX platform branches are taken
(no `.exe` suffix, path-list separator `:`).

Filesystem state is abstracted as a function from a path to its
attributes; GUI dialog outcomes (save-file dialog, overwrite
confirmation) are inputs of the model.
-/

/-- Attributes `QFileInfo` reports for one path: `exists()`, `isReadable()`,
`isExecutable()`. -/
structure FileAttrs where
  present : Bool
  readable : Bool
  executable : Bool
deriving DecidableEq, Repr

/-- Abstract filesystem: attributes of every path. -/
def FileSystem : Type := String → FileAttrs

/-- Embeds `QString::split(sep)` on a character list, keeping empty parts
(Qt 4 default behaviour): `"a::b"` splits into `["a", "", "b"]`. -/
def splitChar (sep : Char) : List Char → List (List Char)
  | [] => [[]]
  | c :: cs =>
    if c = sep then [] :: splitChar sep cs
    else
      match splitChar sep cs with
      | [] => [[c]]
      | h :: t => (c :: h) :: t

/-- Embeds `QString::split(':')` on a `String`. -/
def qsplitColon (s : String) : List String :=
  (splitChar ':' s.toList).map String.mk

/-- Embeds `get_env_path` (dviexport.cpp lines 192-208), POSIX branch
(separator ':').  The environment variable's value is `none` when unset.
The guard on the *name* argument (`!envname || !*envname`) is dropped:
the only call site passes the literal `"PATH"`. -/
def get_env_path (envvar : Option String) : List String :=
  match envvar with
  | none => []
  | some s => if s.isEmpty then [] else qsplitColon s

/-- Embeds `QFileInfo::isAbsolute` on POSIX: the path begins with `/`. -/
def isAbsolutePath (s : String) : Bool :=
  match s.toList with
  | [] => false
  | c :: _ => c = '/'

/-- Embeds `QString::endsWith("/")`: the last character is `/`. -/
def endsWithSlash (s : String) : Bool :=
  match s.toList.getLast? with
  | some c => c = '/'
  | none => false

/-- The loop of `find_exe` (lines 232-238): for each directory of the
search path, build `dir + exe` (appending `/` unless the directory already
ends in it); at the FIRST directory where the candidate exists, return
whether it is readable and executable, without trying later directories. -/
def find_exe_loop (fs : FileSystem) (exe : String) : List String → Bool
  | [] => false
  | d :: rest =>
    let dir := if endsWithSlash d then d else d ++ "/"
    let abs_exe := fs (dir ++ exe)
    if abs_exe.present then abs_exe.readable && abs_exe.executable
    else find_exe_loop fs exe rest

/-- Embeds `find_exe` (lines 214-241), POSIX branch (no `.exe` suffix
appended).  `pathEnv` is the value of the `PATH` environment variable. -/
def find_exe (fs : FileSystem) (pathEnv : Option String) (exe_ : String) : Bool :=
  if isAbsolutePath exe_ then
    (fs exe_).present && (fs exe_).readable && (fs exe_).executable
  else
    let path := get_env_path pathEnv
    if path.isEmpty then false
    else find_exe_loop fs exe_ path

/-- The first directory entry of the search path whose candidate
`directory/name` exists, as the claim describes resolution. -/
def firstExistingCandidate (fs : FileSystem) (exe : String) :
    List String → Option FileAttrs
  | [] => none
  | d :: rest =>
    let cand := fs ((if endsWithSlash d then d else d ++ "/") ++ exe)
    if cand.present then some cand else firstExistingCandidate fs exe rest

/-- Resolution as the specification words it: an absolute name succeeds
iff the file exists, is readable and is executable, independent of `PATH`;
otherwise `PATH` is split and tried in order, and resolution succeeds iff
the first directory in which the candidate exists yields a readable and
executable file; a missing or empty `PATH` fails. -/
def resolve_spec (fs : FileSystem) (pathEnv : Option String) (name : String) : Bool :=
  if isAbsolutePath name then
    (fs name).present && (fs name).readable && (fs name).executable
  else
    match firstExistingCandidate fs name (get_env_path pathEnv) with
    | none => false
    | some cand => cand.readable && cand.executable

/-- The fields of `dvifile` that the export constructors read. -/
structure Dvifile where
  filename : String
  page_offset : List Nat
  numberOfExternalNONPSFiles : Nat
  suggestedPageSize : Nat
  total_pages : Nat
deriving DecidableEq, Repr

/-- Embeds `QFileInfo::dirPath(true)` for an absolute file path: everything
before the last `/`. -/
def dirPath (p : String) : String :=
  String.mk (((p.toList.reverse.dropWhile (fun c => c ≠ '/')).drop 1).reverse)

/-- Interactive output-name selection shared by both constructors
(lines 272-285 and 357-370): the save dialog supplies a name (empty =
user declined); then `if (!output.exists())` the overwrite-confirmation
dialog is requested, and `Cancel` abandons the export.  Returns the
chosen name (`none` = abandoned) and whether the confirmation dialog was
requested. -/
def chooseOutput (fs : FileSystem) (dialogResult : String)
    (overwriteCancel : Bool) : Option String × Bool :=
  if dialogResult.isEmpty then (none, false)
  else if !(fs dialogResult).present then
    (if overwriteCancel then none else some dialogResult, true)
  else (some dialogResult, false)

/-- What `DVIExport::start` is handed when a constructor reaches it,
together with the constructor-level facts the claims are about. -/
structure StartedProc where
  command : String
  args : List String
  workingDirectory : String
  inputName : String
  outputName : String
  tmpFileCreated : Bool
  askedOverwrite : Bool
deriving DecidableEq, Repr

/-- Outcome of an export constructor: either an early `return` before
`start` (no temporary file written, no process launched), or a launched
conversion. -/
inductive ExportOutcome where
  | abandoned : ExportOutcome
  | started : StartedProc → ExportOutcome
deriving DecidableEq, Repr

/-- Whether the outcome launched a converter process. -/
def ExportOutcome.launched : ExportOutcome → Bool
  | .abandoned => false
  | .started _ => true

/-- Whether the outcome wrote a temporary rewritten file. -/
def ExportOutcome.createdTmp : ExportOutcome → Bool
  | .abandoned => false
  | .started p => p.tmpFileCreated

/-- Embeds the `DVIExportToPS` constructor (lines 310-472).
`output_name` is the constructor argument (empty means the name is chosen
interactively), `printer` tells whether a physical printer target
(`KPrinter*`) was attached, `saveDialogResult` / `overwriteCancel` are the
dialog outcomes, and `tmpfileName` is the name `QTemporaryFile` would
hand out. -/
def psExport (fs : FileSystem) (pathEnv : Option String)
    (dviFile : Option Dvifile) (output_name : String)
    (options : List String) (printer : Bool)
    (saveDialogResult : String) (overwriteCancel : Bool)
    (tmpfileName : String) : ExportOutcome :=
  match dviFile with
  | none => .abandoned
  | some dvi =>
    let input := fs dvi.filename
    if !input.present || !input.readable then .abandoned
    else if dvi.page_offset.isEmpty then .abandoned
    else if dvi.numberOfExternalNONPSFiles != 0 then .abandoned
    else if !find_exe fs pathEnv "dvips" then .abandoned
    else
      let chosen :=
        if !output_name.isEmpty then (some output_name, false)
        else chooseOutput fs saveDialogResult overwriteCancel
      match chosen with
      | (none, _) => .abandoned
      | (some outName, asked) =>
        let rewrite := !options.isEmpty || dvi.suggestedPageSize != 0
        let input_name := if rewrite then tmpfileName else dvi.filename
        let args0 := if !printer then ["-z"] else []
        let args1 := if !options.isEmpty then args0 ++ options else args0
        let args := args1 ++ [input_name, "-o", outName]
        .started
          { command := "dvips"
            args := args
            workingDirectory := dirPath dvi.filename
            inputName := input_name
            outputName := outName
            tmpFileCreated := rewrite
            askedOverwrite := asked }

/-- What `KProcess` reports about a terminated child:
`normalExit()` and `exitStatus()`. -/
structure ProcInfo where
  normalExit : Bool
  exitStatus : Int
deriving DecidableEq, Repr

/-- The members of `DVIExport` / `DVIExportToPS` that the finish and
abort handlers read and write.  `process_ = none` models the null
process pointer, `progress_ = false` a null progress-dialog pointer,
`printer_ = false` a null `KPrinter*`. -/
structure ExportState where
  started_ : Bool
  process_ : Option ProcInfo
  progress_ : Bool
  error_message_ : String
  output_name_ : String
  tmpfile_name_ : String
  printer_ : Bool
deriving DecidableEq, Repr

/-- Observable effects of one run of a finish handler. -/
structure FinishEffects where
  reportedMessage : Option String
  notifiedExportFinished : Bool
  printedFile : Bool
  removedTmpFile : Bool
deriving DecidableEq, Repr

/-- Embeds `DVIExport::abort_process_impl` (lines 120-135): the progress
dialog is deleted and, crucially, the process handle is deleted (killing
the child) and set to null. -/
def abort_process_impl (s : ExportState) : ExportState :=
  { s with progress_ := false, process_ := none }

/-- Embeds `DVIExport::finished_impl` (lines 139-159, `KProcess` branch):
the error box is shown iff the process pointer is non-null, the child
exited normally and its exit status is non-zero; `export_finished` is
called unconditionally. -/
def finished_impl (s : ExportState) : FinishEffects :=
  { reportedMessage :=
      match s.process_ with
      | some p => if p.normalExit && p.exitStatus != 0 then some s.error_message_ else none
      | none => none
    notifiedExportFinished := true
    printedFile := false
    removedTmpFile := false }

/-- Embeds `DVIExportToPS::abort_process_impl` (lines 495-506): removes
the temporary file if one was recorded, clears `tmpfile_name_` and
`printer_`, then runs the base handler.  The second component reports
whether a temporary file was removed. -/
def psAbort_process_impl (s : ExportState) : ExportState × Bool :=
  let removed := !s.tmpfile_name_.isEmpty
  (abort_process_impl { s with tmpfile_name_ := "", printer_ := false }, removed)

/-- Embeds `DVIExportToPS::finished_impl` (lines 476-492, `KProcess`
branch): if a printer target is attached and the output file exists and
is readable it is handed to the printer, then the base handler runs.
No statement of this function removes the temporary file. -/
def psFinished_impl (s : ExportState) (fs : FileSystem) : FinishEffects :=
  let printed := s.printer_ && !s.output_name_.isEmpty &&
    (fs s.output_name_).present && (fs s.output_name_).readable
  { finished_impl s with printedFile := printed }

/-- Embeds `QString::find(".")` on a character list: index of the first
`.`, or `-1` when absent. -/
def qFindDot : List Char → Int
  | [] => -1
  | c :: cs =>
    if c = '.' then 0
    else
      let r := qFindDot cs
      if r < 0 then -1 else r + 1

/-- Embeds `QString::left(n)`: the first `n` characters; a negative `n`
yields the whole string. -/
def qLeft (s : List Char) (n : Int) : List Char :=
  if n < 0 then s else s.take n.toNat

/-- Embeds the suggested-output-name computation
`filename.left(filename.find(".")) + ext` (lines 271 and 356). -/
def suggestedName (filename ext : List Char) : List Char :=
  qLeft filename (qFindDot filename) ++ ext

/-- Embeds the `DVIExportToPDF` constructor (lines 246-307). -/
def pdfExport (fs : FileSystem) (pathEnv : Option String)
    (dviFile : Option Dvifile) (saveDialogResult : String)
    (overwriteCancel : Bool) : ExportOutcome :=
  match dviFile with
  | none => .abandoned
  | some dvi =>
    let input := fs dvi.filename
    if !input.present || !input.readable then .abandoned
    else if !find_exe fs pathEnv "dvipdfm" then .abandoned
    else
      match chooseOutput fs saveDialogResult overwriteCancel with
      | (none, _) => .abandoned
      | (some outName, asked) =>
        .started
          { command := "dvipdfm"
            args := ["-o", outName, dvi.filename]
            workingDirectory := dirPath dvi.filename
            inputName := dvi.filename
            outputName := outName
            tmpFileCreated := false
            askedOverwrite := asked }

/-- Helper: the first-index / prefix computation agrees with taking the
longest dot-free prefix. -/
theorem qLeft_qFindDot_eq_takeWhile (l : List Char) :
    qLeft l (qFindDot l) = l.takeWhile (fun c => c ≠ '.') := by
  induction l with
  | nil => rfl
  | cons c cs ih =>
    by_cases h : c = '.'
    · subst h
      simp [qFindDot, qLeft, List.takeWhile]
    · rcases lt_or_ge (qFindDot cs) 0 with hr | hr
      · have h2 := ih
        simp only [qLeft, if_pos hr] at h2
        simp [qFindDot, qLeft, h, hr, List.takeWhile]
        simp only [ne_eq, decide_not] at h2
        exact h2
      · have hnot : ¬ qFindDot cs < 0 := not_lt.mpr hr
        have htn : (qFindDot cs + 1).toNat = (qFindDot cs).toNat + 1 := by omega
        have h1 : ¬ qFindDot cs + 1 < 0 := by omega
        have h2 := ih
        simp only [qLeft, if_neg hnot] at h2
        simp only [qFindDot, qLeft, if_neg h, hnot, if_false, if_neg h1, htn]
        simp [List.takeWhile, h]
        simp only [ne_eq, decide_not] at h2
        exact h2

/-- Claim C3: after `DVIExport::abort_process_impl` has run (deleting the
process handle and nulling the pointer), a subsequently delivered finish
notification produces no user-visible failure report: the error-box
branch of `finished_impl`, guarded on the process handle, is a no-op, for
the base handler as well as for the PS override (which, after the PS
abort cleared `printer_`, also hands nothing to the printer). -/
theorem abort_before_finish_suppresses_report :
    ∀ (s : ExportState) (fs : FileSystem),
      (finished_impl (abort_process_impl s)).reportedMessage = none ∧
      (psFinished_impl (psAbort_process_impl s).1 fs).reportedMessage = none ∧
      (psFinished_impl (psAbort_process_impl s).1 fs).printedFile = false := by
  intro s fs
  simp [finished_impl, psFinished_impl, abort_process_impl, psAbort_process_impl]

/-- Claim C6: for a terminated child whose handle is still live and which
exited normally, `DVIExport::finished_impl` shows the caller-supplied
error-message template iff the exit status is non-zero; and it calls
`parent_->export_finished(this)` in all cases, whatever the state. -/
theorem finished_reports_iff_nonzero_and_always_notifies :
    (∀ s : ExportState, (finished_impl s).notifiedExportFinished = true) ∧
    (∀ (s : ExportState) (p : ProcInfo),
      s.process_ = some p → p.normalExit = true →
      (finished_impl s).reportedMessage =
        (if p.exitStatus ≠ 0 then some s.error_message_ else none)) := by
  constructor
  · intro s
    rfl
  · intro s p hp hn
    simp [finished_impl, hp, hn, bne_iff_ne]

/-- Witness for claim C6: a child that exited normally with status 1 has
its error template reported, and the coordinator is notified. -/
theorem finished_reports_iff_nonzero_witness :
    (finished_impl
      { started_ := true, process_ := some { normalExit := true, exitStatus := 1 },
        progress_ := true, error_message_ := "dvips reported an error",
        output_name_ := "/home/u/a.ps", tmpfile_name_ := "", printer_ := false
        }).reportedMessage = some "dvips reported an error" ∧
    (finished_impl
      { started_ := true, process_ := some { normalExit := true, exitStatus := 1 },
        progress_ := true, error_message_ := "dvips reported an error",
        output_name_ := "/home/u/a.ps", tmpfile_name_ := "", printer_ := false
        }).notifiedExportFinished = true := by
  constructor
  · have h := finished_reports_iff_nonzero_and_always_notifies.2
      { started_ := true, process_ := some { normalExit := true, exitStatus := 1 },
        progress_ := true, error_message_ := "dvips reported an error",
        output_name_ := "/home/u/a.ps", tmpfile_name_ := "", printer_ := false }
      { normalExit := true, exitStatus := 1 } rfl rfl
    simpa using h
  · exact finished_reports_iff_nonzero_and_always_notifies.1 _

/-- Claim C2 (evaluation at the failing input): an export that created a
temporary rewritten file and whose converter process then finishes
normally reaches the terminal state through `DVIExportToPS::finished_impl`
without the temporary file ever being removed — only the abort handler
removes it.  This contradicts the in-source comment (lines 379-384, "the
file is afterwards deleted") and the specification. -/
theorem ps_finish_leaves_tmpfile_behind :
    (psFinished_impl
      { started_ := true, process_ := some { normalExit := true, exitStatus := 0 },
        progress_ := true, error_message_ := "e", output_name_ := "/home/u/a.ps",
        tmpfile_name_ := "/tmp/qt_temp.ab1234", printer_ := false }
      (fun _ => { present := true, readable := true, executable := false
        })).removedTmpFile = false ∧
    (psAbort_process_impl
      { started_ := true, process_ := some { normalExit := true, exitStatus := 0 },
        progress_ := true, error_message_ := "e", output_name_ := "/home/u/a.ps",
        tmpfile_name_ := "/tmp/qt_temp.ab1234", printer_ := false }).2 = true := by
  exact ⟨rfl, by decide⟩

/-- Claim C10: when the output path is chosen interactively (the save
dialog returned a non-empty name), the overwrite-confirmation dialog is
requested iff the chosen file does NOT already exist (the guard
`if (!output.exists())` is inverted); when the chosen file does exist the
export proceeds with it without asking. -/
theorem overwrite_dialog_iff_output_absent :
    ∀ (fs : FileSystem) (dialogResult : String) (cancel : Bool),
      dialogResult.isEmpty = false →
      ((chooseOutput fs dialogResult cancel).2 = !(fs dialogResult).present) ∧
      ((fs dialogResult).present = true →
        chooseOutput fs dialogResult cancel = (some dialogResult, false)) := by
  intro fs d c hd
  constructor
  · cases h : (fs d).present <;> simp [chooseOutput, hd, h]
  · intro h
    simp [chooseOutput, hd, h]

/-- Witness for claim C10: an existing output file is overwritten with no
confirmation requested. -/
theorem overwrite_dialog_iff_output_absent_witness :
    (chooseOutput (fun _ => { present := true, readable := true, executable := true })
      "/home/u/out.pdf" false).2 = false ∧
    chooseOutput (fun _ => { present := true, readable := true, executable := true })
      "/home/u/out.pdf" false = (some "/home/u/out.pdf", false) := by
  have h := overwrite_dialog_iff_output_absent
    (fun _ => { present := true, readable := true, executable := true })
    "/home/u/out.pdf" false (by decide)
  exact ⟨by simpa using h.1, h.2 rfl⟩

/-- Claim C9: the suggested output filename truncates the source filename
at its first `.` and appends the target extension; in particular
`report.v2.dvi` with extension `.pdf` yields `report.pdf`. -/
theorem suggested_name_truncates_at_first_dot :
    (∀ (filename ext : List Char),
      suggestedName filename ext = filename.takeWhile (fun c => c ≠ '.') ++ ext) ∧
    suggestedName "report.v2.dvi".toList ".pdf".toList = "report.pdf".toList := by
  constructor
  · intro filename ext
    rw [suggestedName, qLeft_qFindDot_eq_takeWhile]
  · decide

/-- Helper: the search loop of `find_exe` returns the readable/executable
verdict of the first existing candidate, and fails when none exists. -/
theorem find_exe_loop_eq_firstExistingCandidate (fs : FileSystem) (exe : String) :
    ∀ l : List String,
      find_exe_loop fs exe l =
        (match firstExistingCandidate fs exe l with
         | none => false
         | some cand => cand.readable && cand.executable) := by
  intro l
  induction l with
  | nil => rfl
  | cons d rest ih =>
    by_cases h : (fs ((if endsWithSlash d then d else d ++ "/") ++ exe)).present
    · simp [find_exe_loop, firstExistingCandidate, h]
    · simp [find_exe_loop, firstExistingCandidate, h, ih]

/-- Claim C4: `find_exe` resolves exactly as the specification describes:
an absolute name succeeds iff the file exists, is readable and is
executable, independent of `PATH`; otherwise `PATH` is split on the
path-list separator and tried in order, the first directory holding an
existing candidate decides (an existing but non-readable or
non-executable first match fails without trying later directories), and
a missing or empty `PATH` fails. -/
theorem find_exe_matches_spec_resolution :
    ∀ (fs : FileSystem) (pathEnv : Option String) (name : String),
      find_exe fs pathEnv name = resolve_spec fs pathEnv name := by
  intro fs pathEnv name
  unfold find_exe resolve_spec
  by_cases h : isAbsolutePath name
  · simp [h]
  · simp only [h, Bool.false_eq_true, if_false]
    cases hp : get_env_path pathEnv with
    | nil => rfl
    | cons d rest =>
      simp only [List.isEmpty_cons, if_false, Bool.false_eq_true]
      exact find_exe_loop_eq_firstExistingCandidate fs name (d :: rest)

/-- Helper: when the `DVIExportToPS` constructor reaches `start`, its
payload fields are determined by the request: `dvips` is the command, the
temporary rewritten file is created exactly when the request carries
options or the document a page-size directive, the converter input is the
temporary file in that case and the original file otherwise, and the
argument vector and working directory are as constructed. -/
theorem psExport_started_inversion
    (fs : FileSystem) (pathEnv : Option String) (dvi : Dvifile)
    (output_name : String) (options : List String) (printer : Bool)
    (dlg : String) (cancel : Bool) (tmp : String) (payload : StartedProc)
    (h : psExport fs pathEnv (some dvi) output_name options printer dlg cancel tmp
      = ExportOutcome.started payload) :
    payload.command = "dvips" ∧
    payload.tmpFileCreated = (!options.isEmpty || dvi.suggestedPageSize != 0) ∧
    payload.inputName =
      (if (!options.isEmpty || dvi.suggestedPageSize != 0) then tmp else dvi.filename) ∧
    payload.args = (if !printer then ["-z"] else []) ++ options
      ++ [payload.inputName, "-o", payload.outputName] ∧
    payload.workingDirectory = dirPath dvi.filename := by
  simp only [psExport] at h
  rcases hch : (if !output_name.isEmpty then ((some output_name : Option String), false)
      else chooseOutput fs dlg cancel) with ⟨o, asked⟩
  rw [hch] at h
  cases o with
  | none => split_ifs at h
  | some outName =>
    split_ifs at h <;> simp at h
    all_goals subst h
    all_goals simp_all [List.isEmpty_iff]

/-- Helper: when the `DVIExportToPDF` constructor reaches `start`, its
payload is `dvipdfm` with arguments `-o <output> <input>` run in the
source file's directory, with no temporary file. -/
theorem pdfExport_started_inversion
    (fs : FileSystem) (pathEnv : Option String) (dvi : Dvifile)
    (dlg : String) (cancel : Bool) (payload : StartedProc)
    (h : pdfExport fs pathEnv (some dvi) dlg cancel = ExportOutcome.started payload) :
    payload.command = "dvipdfm" ∧
    payload.args = ["-o", payload.outputName, dvi.filename] ∧
    payload.workingDirectory = dirPath dvi.filename ∧
    payload.inputName = dvi.filename ∧
    payload.tmpFileCreated = false := by
  simp only [pdfExport] at h
  rcases hch : chooseOutput fs dlg cancel with ⟨o, asked⟩
  rw [hch] at h
  cases o with
  | none => split_ifs at h
  | some outName =>
    split_ifs at h
    simp at h
    subst h
    simp

/-- Claim C1: for every PostScript export request that passes all
synchronous validation checks (its constructor reaches `start`), the
temporary rewritten input file is created and passed to the converter iff
the converter-option list is non-empty or the document's page-size
directive (`suggestedPageSize`) is non-zero; in every other case no
temporary file is created and the original document's file path is passed
to dvips unchanged. -/
theorem ps_rewrite_iff_options_or_pagesize :
    ∀ (fs : FileSystem) (pathEnv : Option String) (dvi : Dvifile)
      (output_name : String) (options : List String) (printer : Bool)
      (dlg : String) (cancel : Bool) (tmp : String) (payload : StartedProc),
      psExport fs pathEnv (some dvi) output_name options printer dlg cancel tmp
        = ExportOutcome.started payload →
      (payload.tmpFileCreated = (!options.isEmpty || dvi.suggestedPageSize != 0)) ∧
      ((!options.isEmpty || dvi.suggestedPageSize != 0) = true →
        payload.inputName = tmp) ∧
      ((!options.isEmpty || dvi.suggestedPageSize != 0) = false →
        payload.tmpFileCreated = false ∧ payload.inputName = dvi.filename) := by
  intro fs pathEnv dvi output_name options printer dlg cancel tmp payload h
  obtain ⟨-, h2, h3, -, -⟩ := psExport_started_inversion _ _ _ _ _ _ _ _ _ _ h
  refine ⟨h2, ?_, ?_⟩
  · intro hc
    rw [h3, if_pos hc]
  · intro hc
    refine ⟨by rw [h2, hc], ?_⟩
    rw [h3, if_neg (by simp [hc])]

/-- Witness for claim C1: with empty options and a non-zero page-size
directive the constructor starts dvips on the temporary rewritten file. -/
theorem ps_rewrite_iff_options_or_pagesize_witness :
    psExport (fun _ => { present := true, readable := true, executable := true })
      (some "/usr/bin")
      (some ⟨"/home/u/a.dvi", [17, 1000], 0, 1, 1⟩)
      "/home/u/a.ps" [] false "" false "/tmp/kdvi001"
      = ExportOutcome.started
        ⟨"dvips", ["-z", "/tmp/kdvi001", "-o", "/home/u/a.ps"], "/home/u",
          "/tmp/kdvi001", "/home/u/a.ps", true, false⟩ ∧
    (⟨"dvips", ["-z", "/tmp/kdvi001", "-o", "/home/u/a.ps"], "/home/u",
        "/tmp/kdvi001", "/home/u/a.ps", true, false⟩ : StartedProc).inputName
      = "/tmp/kdvi001" := by
  have h : psExport (fun _ => { present := true, readable := true, executable := true })
      (some "/usr/bin")
      (some ⟨"/home/u/a.dvi", [17, 1000], 0, 1, 1⟩)
      "/home/u/a.ps" [] false "" false "/tmp/kdvi001"
      = ExportOutcome.started
        ⟨"dvips", ["-z", "/tmp/kdvi001", "-o", "/home/u/a.ps"], "/home/u",
          "/tmp/kdvi001", "/home/u/a.ps", true, false⟩ := by decide
  exact ⟨h,
    (ps_rewrite_iff_options_or_pagesize _ _ _ _ _ _ _ _ _ _ h).2.1 (by decide)⟩

/-- Claim C5: a PostScript export request whose document references a
non-zero count of externally-referenced non-PostScript graphics is
refused outright: no temporary rewritten file is created and no external
process is launched. -/
theorem nonps_graphics_refused :
    ∀ (fs : FileSystem) (pathEnv : Option String) (dvi : Dvifile)
      (output_name : String) (options : List String) (printer : Bool)
      (dlg : String) (cancel : Bool) (tmp : String),
      dvi.numberOfExternalNONPSFiles ≠ 0 →
      (psExport fs pathEnv (some dvi) output_name options printer dlg cancel
        tmp).createdTmp = false ∧
      (psExport fs pathEnv (some dvi) output_name options printer dlg cancel
        tmp).launched = false := by
  intro fs pathEnv dvi output_name options printer dlg cancel tmp hne
  have hb : (dvi.numberOfExternalNONPSFiles != 0) = true := by simpa using hne
  have habandoned : psExport fs pathEnv (some dvi) output_name options printer dlg
      cancel tmp = ExportOutcome.abandoned := by
    simp only [psExport]
    split_ifs with g1 g2 <;> rfl
  rw [habandoned]
  exact ⟨rfl, rfl⟩

/-- Witness for claim C5: a document with two external non-PS graphics is
refused with no temporary file and no launch. -/
theorem nonps_graphics_refused_witness :
    (psExport (fun _ => { present := true, readable := true, executable := true })
      (some "/usr/bin") (some ⟨"/home/u/b.dvi", [17, 900], 2, 0, 1⟩)
      "/home/u/b.ps" ["-pp", "3"] false "" false "/tmp/kdvi002").createdTmp = false ∧
    (psExport (fun _ => { present := true, readable := true, executable := true })
      (some "/usr/bin") (some ⟨"/home/u/b.dvi", [17, 900], 2, 0, 1⟩)
      "/home/u/b.ps" ["-pp", "3"] false "" false "/tmp/kdvi002").launched = false :=
  nonps_graphics_refused _ _ _ _ _ _ _ _ _ (by decide)

/-- Claim C7 counterexample: a PostScript export request whose source
document has an empty page table does NOT proceed with the original
document as the converter input — the constructor returns early, so the
export is abandoned and no converter is invoked at all. -/
theorem empty_page_table_export_abandoned_cex :
    psExport (fun _ => { present := true, readable := true, executable := true })
      (some "/usr/bin") (some ⟨"/home/u/c.dvi", [], 0, 0, 0⟩)
      "/home/u/c.ps" [] false "" false "/tmp/kdvi003"
      = ExportOutcome.abandoned ∧
    (psExport (fun _ => { present := true, readable := true, executable := true })
      (some "/usr/bin") (some ⟨"/home/u/c.dvi", [], 0, 0, 0⟩)
      "/home/u/c.ps" [] false "" false "/tmp/kdvi003").launched = false := by
  exact ⟨by decide, by decide⟩

/-- Claim C7 (amended): for every PostScript export request whose source
document has an empty page table, the export is abandoned before the
rewrite pass: the rewrite is skipped, no temporary file is created, and
no converter is launched — the original document is not fed to dvips
either. -/
theorem empty_page_table_abandons_export :
    ∀ (fs : FileSystem) (pathEnv : Option String) (dvi : Dvifile)
      (output_name : String) (options : List String) (printer : Bool)
      (dlg : String) (cancel : Bool) (tmp : String),
      dvi.page_offset = [] →
      psExport fs pathEnv (some dvi) output_name options printer dlg cancel tmp
        = ExportOutcome.abandoned := by
  intro fs pathEnv dvi output_name options printer dlg cancel tmp hpo
  simp [psExport, hpo]

/-- Witness for claim C7 (amended): a request with options and a non-zero
page-size directive but an empty page table is abandoned. -/
theorem empty_page_table_abandons_export_witness :
    psExport (fun _ => { present := true, readable := true, executable := true })
      (some "/usr/bin") (some ⟨"/home/u/d.dvi", [], 0, 3, 2⟩)
      "" ["-pp", "2"] true "/home/u/d.ps" false "/tmp/kdvi004"
      = ExportOutcome.abandoned :=
  empty_page_table_abandons_export _ _ _ _ _ _ _ _ _ rfl

/-- Claim C8: every launched conversion uses exactly the specified
argument vector: the PDF path invokes `dvipdfm` with
`["-o", output_path, input_path]`, and the PostScript path invokes
`dvips` with `-z` exactly when no physical printer target is attached,
followed by the user options, followed by
`[input_path, "-o", output_path]`; in both constructors the working
directory is the source DVI file's directory
(`QFileInfo(dvi.filename).dirPath(true)`). -/
theorem converter_argument_vectors :
    (∀ (fs : FileSystem) (pathEnv : Option String) (dvi : Dvifile)
      (dlg : String) (cancel : Bool) (payload : StartedProc),
      pdfExport fs pathEnv (some dvi) dlg cancel = ExportOutcome.started payload →
      payload.command = "dvipdfm" ∧
      payload.args = ["-o", payload.outputName, dvi.filename] ∧
      payload.workingDirectory = dirPath dvi.filename) ∧
    (∀ (fs : FileSystem) (pathEnv : Option String) (dvi : Dvifile)
      (output_name : String) (options : List String) (printer : Bool)
      (dlg : String) (cancel : Bool) (tmp : String) (payload : StartedProc),
      psExport fs pathEnv (some dvi) output_name options printer dlg cancel tmp
        = ExportOutcome.started payload →
      payload.command = "dvips" ∧
      payload.args = (if printer then [] else ["-z"]) ++ options
        ++ [payload.inputName, "-o", payload.outputName] ∧
      payload.workingDirectory = dirPath dvi.filename) := by
  constructor
  · intro fs pathEnv dvi dlg cancel payload h
    obtain ⟨h1, h2, h3, -, -⟩ := pdfExport_started_inversion _ _ _ _ _ _ h
    exact ⟨h1, h2, h3⟩
  · intro fs pathEnv dvi output_name options printer dlg cancel tmp payload h
    obtain ⟨h1, -, -, h4, h5⟩ := psExport_started_inversion _ _ _ _ _ _ _ _ _ _ h
    refine ⟨h1, ?_, h5⟩
    rw [h4]
    cases printer <;> simp

/-- Witness for claim C8: concrete launched conversions on both paths
with the argument vectors spelled out. -/
theorem converter_argument_vectors_witness :
    ((⟨"dvipdfm", ["-o", "/home/u/e.pdf", "/home/u/e.dvi"], "/home/u",
        "/home/u/e.dvi", "/home/u/e.pdf", false, false⟩ : StartedProc).command
        = "dvipdfm" ∧
      (⟨"dvipdfm", ["-o", "/home/u/e.pdf", "/home/u/e.dvi"], "/home/u",
        "/home/u/e.dvi", "/home/u/e.pdf", false, false⟩ : StartedProc).args
        = ["-o", "/home/u/e.pdf", "/home/u/e.dvi"] ∧
      (⟨"dvipdfm", ["-o", "/home/u/e.pdf", "/home/u/e.dvi"], "/home/u",
        "/home/u/e.dvi", "/home/u/e.pdf", false, false⟩ : StartedProc).workingDirectory
        = dirPath "/home/u/e.dvi") ∧
    ((⟨"dvips", ["-z", "-pp", "3", "/tmp/kdvi005", "-o", "/home/u/e.ps"], "/home/u",
        "/tmp/kdvi005", "/home/u/e.ps", true, false⟩ : StartedProc).command
        = "dvips" ∧
      (⟨"dvips", ["-z", "-pp", "3", "/tmp/kdvi005", "-o", "/home/u/e.ps"], "/home/u",
        "/tmp/kdvi005", "/home/u/e.ps", true, false⟩ : StartedProc).args
        = (if false then [] else ["-z"]) ++ ["-pp", "3"]
          ++ ["/tmp/kdvi005", "-o", "/home/u/e.ps"] ∧
      (⟨"dvips", ["-z", "-pp", "3", "/tmp/kdvi005", "-o", "/home/u/e.ps"], "/home/u",
        "/tmp/kdvi005", "/home/u/e.ps", true, false⟩ : StartedProc).workingDirectory
        = dirPath "/home/u/e.dvi") := by
  have hpdf : pdfExport
      (fun _ => { present := true, readable := true, executable := true })
      (some "/usr/bin") (some ⟨"/home/u/e.dvi", [17, 800], 0, 0, 1⟩)
      "/home/u/e.pdf" false
      = ExportOutcome.started
        ⟨"dvipdfm", ["-o", "/home/u/e.pdf", "/home/u/e.dvi"], "/home/u",
          "/home/u/e.dvi", "/home/u/e.pdf", false, false⟩ := by decide
  have hps : psExport
      (fun _ => { present := true, readable := true, executable := true })
      (some "/usr/bin") (some ⟨"/home/u/e.dvi", [17, 800], 0, 0, 1⟩)
      "/home/u/e.ps" ["-pp", "3"] false "" false "/tmp/kdvi005"
      = ExportOutcome.started
        ⟨"dvips", ["-z", "-pp", "3", "/tmp/kdvi005", "-o", "/home/u/e.ps"],
          "/home/u", "/tmp/kdvi005", "/home/u/e.ps", true, false⟩ := by decide
  exact ⟨converter_argument_vectors.1 _ _ _ _ _ _ hpdf,
    converter_argument_vectors.2 _ _ _ _ _ _ _ _ _ _ hps⟩
